import Mathlib

/-!
Verification of the loyly-proto sensor pipeline.

Shallow embedding of the core (frame decoder, derived-metric calculator,
sample sources, windowed sample store) from the repository sources:
`src/ruuvi.js`, `src/App.jsx`, and the `useRecentSamples` hook shown in
`src/README.md`.

Modelling conventions:
  * a `DataView` buffer is a `List Nat`; each cell is read modulo 256
    (a byte cell can only hold 0..255);
  * JS numbers are embedded as `ℚ` where every operation performed on them
    is rational, and as `ℝ` where the source applies `Math.exp`;
  * a JS function that can `return null`, return an object, or throw is
    embedded with the explicit outcome type `DecodeOutcome`;
  * a thrown-and-caught exception inside a `try` block is an `Option`
    that is `none`.
-/

/-- Byte read `dataView.getUint8(i)`: `none` models the RangeError thrown
on an out-of-bounds read; a byte cell holds its value modulo 256. -/
def getUint8 (bytes : List Nat) (i : Nat) : Option Nat :=
  (bytes[i]?).map (fun b => b % 256)

/-- `dataView.getUint16(i, false)`: big-endian unsigned 16-bit read. -/
def getUint16 (bytes : List Nat) (i : Nat) : Option Nat := do
  let b0 ← getUint8 bytes i
  let b1 ← getUint8 bytes (i + 1)
  pure (b0 * 256 + b1)

/-- Reinterpret an unsigned 16-bit value as a signed (two's complement) one. -/
def toInt16 (u : Nat) : Int :=
  if u < 32768 then (u : Int) else (u : Int) - 65536

/-- `dataView.getInt16(i, false)`: big-endian signed 16-bit read. -/
def getInt16 (bytes : List Nat) (i : Nat) : Option Int :=
  (getUint16 bytes i).map toInt16

/-- The decoded measurement record returned by `decodeRuuviDF5`.
`none` in an `Option` field is the absent marker (JS `null`).  The
`mac` field is `none` where the source omits it (`src/ruuvi.js` has the
MAC extraction commented out); in `src/App.jsx` it is the list of the six
raw bytes (the source hex-formats them into a string; the formatting is
pure presentation and is not modelled). -/
structure Measurement where
  humidity : Option ℚ
  temperature : Option ℚ
  pressure : Option ℚ
  acceleration_x : Option Int
  acceleration_y : Option Int
  acceleration_z : Option Int
  battery : Option Int
  txPower : Option Int
  movement_counter : Nat
  measurement_sequence_number : Nat
  mac : Option (List Nat)
deriving DecidableEq, Repr

/-- Outcome of a call to `decodeRuuviDF5`: a measurement object, JS
`null`, or an exception propagated past the function boundary. -/
inductive DecodeOutcome where
  | ok (m : Measurement)
  | nullResult
  | thrown
deriving DecidableEq, Repr

/-- The decoder's input: either a `DataView` over a byte buffer, or any
other JS value (e.g. `null`, `undefined`, a plain object) — one that has
no `getUint8` method, so calling `getUint8` on it throws a `TypeError`. -/
inductive JsValue where
  | dataView (bytes : List Nat)
  | other
deriving DecidableEq

/-- The `try { ... }` body of `decodeRuuviDF5` in `src/ruuvi.js`, statement
by statement; `none` is an exception caught by the `catch` (→ `null`). -/
def decodeBodyRuuvi (bytes : List Nat) : Option Measurement := do
  let tempRaw ← getInt16 bytes 1
  let temperature := if tempRaw = -32768 then none else some ((tempRaw : ℚ) / 200)
  let humidityRaw ← getUint16 bytes 3
  let humidity := if humidityRaw = 0xFFFF then none else some ((humidityRaw : ℚ) / 400)
  let pressureRaw ← getUint16 bytes 5
  let pressure := if pressureRaw = 0xFFFF then none else some (((pressureRaw : ℚ) + 50000) / 100)
  let accXRaw ← getInt16 bytes 7
  let accYRaw ← getInt16 bytes 9
  let accZRaw ← getInt16 bytes 11
  let accX := if accXRaw = -32768 then none else some accXRaw
  let accY := if accYRaw = -32768 then none else some accYRaw
  let accZ := if accZRaw = -32768 then none else some accZRaw
  let powerInfo ← getUint8 bytes 13
  let batteryVoltage := powerInfo >>> 5
  let txPowerRaw := powerInfo &&& 0x1F
  let battery := if batteryVoltage = 0b1111111 then none else some (1600 + (batteryVoltage : Int))
  let txPower := if txPowerRaw = 0b11111 then none else some (-40 + (txPowerRaw : Int) * 2)
  let movement_counter ← getUint8 bytes 15
  let measurement_sequence_number ← getUint16 bytes 16
  pure {
    humidity := humidity
    temperature := temperature
    pressure := pressure
    acceleration_x := accX
    acceleration_y := accY
    acceleration_z := accZ
    battery := battery
    txPower := txPower
    movement_counter := movement_counter
    measurement_sequence_number := measurement_sequence_number
    mac := none
  }

/-- The six-byte MAC read of `src/App.jsx`
(`Array.from({length: 6}, (_, i) => dataView.getUint8(18 + i) ...)`). -/
def macField (bytes : List Nat) : Option (List Nat) := do
  let b0 ← getUint8 bytes 18
  let b1 ← getUint8 bytes 19
  let b2 ← getUint8 bytes 20
  let b3 ← getUint8 bytes 21
  let b4 ← getUint8 bytes 22
  let b5 ← getUint8 bytes 23
  pure [b0, b1, b2, b3, b4, b5]

/-- The `try { ... }` body of `decodeRuuviDF5` in `src/App.jsx`: identical
to the `src/ruuvi.js` body except that the MAC bytes are extracted. -/
def decodeBodyApp (bytes : List Nat) : Option Measurement := do
  let tempRaw ← getInt16 bytes 1
  let temperature := if tempRaw = -32768 then none else some ((tempRaw : ℚ) / 200)
  let humidityRaw ← getUint16 bytes 3
  let humidity := if humidityRaw = 0xFFFF then none else some ((humidityRaw : ℚ) / 400)
  let pressureRaw ← getUint16 bytes 5
  let pressure := if pressureRaw = 0xFFFF then none else some (((pressureRaw : ℚ) + 50000) / 100)
  let accXRaw ← getInt16 bytes 7
  let accYRaw ← getInt16 bytes 9
  let accZRaw ← getInt16 bytes 11
  let accX := if accXRaw = -32768 then none else some accXRaw
  let accY := if accYRaw = -32768 then none else some accYRaw
  let accZ := if accZRaw = -32768 then none else some accZRaw
  let powerInfo ← getUint8 bytes 13
  let batteryVoltage := powerInfo >>> 5
  let txPowerRaw := powerInfo &&& 0x1F
  let battery := if batteryVoltage = 0b1111111 then none else some (1600 + (batteryVoltage : Int))
  let txPower := if txPowerRaw = 0b11111 then none else some (-40 + (txPowerRaw : Int) * 2)
  let movement_counter ← getUint8 bytes 15
  let measurement_sequence_number ← getUint16 bytes 16
  let macBytes ← macField bytes
  pure {
    humidity := humidity
    temperature := temperature
    pressure := pressure
    acceleration_x := accX
    acceleration_y := accY
    acceleration_z := accZ
    battery := battery
    txPower := txPower
    movement_counter := movement_counter
    measurement_sequence_number := measurement_sequence_number
    mac := some macBytes
  }

/-- `decodeRuuviDF5` as written in `src/ruuvi.js`.  Its guard is
`if (!(dataView instanceof DataView) && dataView.getUint8(0) !== 0x05) return null;`:
  * on a `DataView`, `!(dataView instanceof DataView)` is `false`, the
    `&&` short-circuits, the guard never fires, and the body runs no
    matter what byte 0 or the length is;
  * on any other value, the second conjunct calls `.getUint8(0)` on a
    value without that method, throwing a `TypeError` outside the `try`
    block, which propagates to the caller. -/
def decodeRuuviDF5_ruuvi (v : JsValue) : DecodeOutcome :=
  match v with
  | JsValue.other => DecodeOutcome.thrown
  | JsValue.dataView bytes =>
      match decodeBodyRuuvi bytes with
      | some m => DecodeOutcome.ok m
      | none => DecodeOutcome.nullResult

/-- `decodeRuuviDF5` as written in `src/App.jsx`.  Its guard is
`if (!(dataView instanceof DataView) || dataView.byteLength !== 24 || dataView.getUint8(0) !== 0x05) return null;`
with short-circuit `||`: the `getUint8(0)` call (outside the `try`) is
only reached when the input is a 24-byte `DataView`, where it cannot
throw (the impossible out-of-bounds case is kept as `thrown` to embed the
call exactly as the source places it). -/
def decodeRuuviDF5_app (v : JsValue) : DecodeOutcome :=
  match v with
  | JsValue.other => DecodeOutcome.nullResult
  | JsValue.dataView bytes =>
      if bytes.length ≠ 24 then DecodeOutcome.nullResult
      else
        match getUint8 bytes 0 with
        | none => DecodeOutcome.thrown
        | some b0 =>
            if b0 ≠ 0x05 then DecodeOutcome.nullResult
            else
              match decodeBodyApp bytes with
              | some m => DecodeOutcome.ok m
              | none => DecodeOutcome.nullResult

/-- Project the measurement out of a decode outcome. -/
def okMeasurement : DecodeOutcome → Option Measurement
  | DecodeOutcome.ok m => some m
  | _ => none

/-- `true` exactly when the outcome is a propagated exception. -/
def isThrown : DecodeOutcome → Bool
  | DecodeOutcome.thrown => true
  | _ => false

/-- The arithmetic core of `apparentTemperature` (both copies are
identical): vapor pressure `e = (RH/100) * 6.105 * exp(17.27*T/(237.7+T))`
and `AT = T + 0.33*e - 4.00`.  `Math.exp` is embedded as `Real.exp` over
`ℝ` (the idealisation of IEEE doubles by reals). -/
noncomputable def apTempVal (T RH : ℝ) : ℝ :=
  let e := (RH / 100) * 6.105 * Real.exp (17.27 * T / (237.7 + T))
  T + 0.33 * e - 4.00

/-- `apparentTemperature(T, RH)` from `src/ruuvi.js` / `src/App.jsx`:
`if (T == null || RH == null) return null;` then the formula above.
`none` is JS `null`. -/
noncomputable def apparentTemperature (T RH : Option ℝ) : Option ℝ :=
  match T, RH with
  | some t, some rh => some (apTempVal t rh)
  | _, _ => none

/-- A persisted sample row as used by the windowed query: the Dexie
`samples` table row (`src/README.md` and the `db.js` sources) carries more
columns (temperature, humidity, apparentTemperature, device attribution),
but the windowed query inspects only the `ts` index; `id` is the
auto-assigned primary key that makes distinct appends distinct rows. -/
structure Sample where
  id : Nat
  ts : Int
deriving DecidableEq, Repr

/-- The `ts`-index order used by Dexie when traversing `where("ts")`. -/
def sampleLe (a b : Sample) : Bool := a.ts ≤ b.ts

/-- Dexie returns the rows of an indexed query in ascending index (`ts`)
order, whatever the insertion order of the table was. -/
def sortByTs (rows : List Sample) : List Sample := rows.mergeSort sampleLe

/-- The query of `useRecentSamples(windowMs)` in `src/README.md`:
`db.samples.where("ts").above(now - windowMs).toArray()`.  Dexie's
`above(x)` is strict: it returns the rows with `ts > x`, traversed in
ascending `ts` order; `now` is sampled (`Date.now()`) when the query
runs and is a parameter here. -/
def recentSamplesQuery (rows : List Sample) (now windowMs : Int) : List Sample :=
  (sortByTs rows).filter (fun s => now - windowMs < s.ts)

/-- The update objects emitted to `onUpdate` by a sample source
(`{temperature, humidity, apparentTemperature}`; the error-flagged
variant does not occur on the paths modelled here). -/
structure Update where
  temperature : Option ℝ
  humidity : Option ℝ
  apparentTemp : Option ℝ

/-- Internal state of `createDebugSensor`'s closure (`src/ruuvi.js`):
the captured `interval` timer handle, the four simulation variables and
the `running` flag. -/
structure DebugState where
  interval : Option Nat
  trueTemp : ℝ
  trueRH : ℝ
  fakeTemp : ℝ
  fakeRH : ℝ
  running : Bool

/-- `const BASELINE_RH = 5`. -/
def BASELINE_RH : ℝ := 5

/-- `const BASELINE_TEMP = 60`. -/
def BASELINE_TEMP : ℝ := 60

/-- State right after `createDebugSensor`'s `start()` has run: `running`
set, all four simulation variables reset to baseline, and the
`setInterval` handle (`h`, chosen by the host) stored in `interval`. -/
def startedDebugState (h : Nat) : DebugState :=
  { interval := some h
    trueTemp := BASELINE_TEMP
    trueRH := BASELINE_RH
    fakeTemp := BASELINE_TEMP
    fakeRH := BASELINE_RH
    running := true }

/-- One `setInterval` tick of the debug sensor: decay `trueRH` toward the
baseline (clamping at the baseline), exponentially smooth the fake values
toward the true ones with `alpha = 1 - exp(-dt/tau)`, then emit one
update built from the smoothed values. -/
noncomputable def debugTick (s : DebugState) : DebugState × List Update :=
  let trueRH1 :=
    if BASELINE_RH < s.trueRH then
      let dec := s.trueRH - max ((s.trueRH - BASELINE_RH) * 0.08) 0.05
      if dec < BASELINE_RH then BASELINE_RH else dec
    else s.trueRH
  let tau : ℝ := 2.0
  let dt : ℝ := 1.0
  let alpha := 1 - Real.exp (-dt / tau)
  let fakeTemp1 := s.fakeTemp + alpha * (s.trueTemp - s.fakeTemp)
  let fakeRH1 := s.fakeRH + alpha * (trueRH1 - s.fakeRH)
  ({ s with trueRH := trueRH1, fakeTemp := fakeTemp1, fakeRH := fakeRH1 },
   [{ temperature := some fakeTemp1
      humidity := some fakeRH1
      apparentTemp := apparentTemperature (some fakeTemp1) (some fakeRH1) }])

/-- `fakeLoyly()` of the debug sensor:
`trueRH = Math.min(trueRH + 10, 100);` — and nothing else; in particular
it calls `onUpdate` zero times, so its emission list is empty. -/
def debugFakeLoyly (s : DebugState) : DebugState × List Update :=
  ({ s with trueRH := min (s.trueRH + 10) 100 }, [])

/-- Externally visible side effects of a debug-sensor `stop()`. -/
inductive DebugEffect where
  | clearTimer (h : Nat)
deriving DecidableEq

/-- `stop()` of the debug sensor: `running = false; if (interval)
clearInterval(interval); interval = null;`.  It calls `onUpdate` zero
times; its only external effect is the conditional `clearInterval`. -/
def debugStop (s : DebugState) : DebugState × List DebugEffect :=
  let effs := match s.interval with
    | some h => [DebugEffect.clearTimer h]
    | none => []
  ({ s with running := false, interval := none }, effs)

/-- Events the outside world can apply to a started debug sensor: a timer
tick, or a `fakeLoyly()` press. -/
inductive DebugEvent where
  | tick
  | loyly

/-- Apply one event to the debug-sensor state. -/
noncomputable def debugStep (s : DebugState) (e : DebugEvent) : DebugState :=
  match e with
  | DebugEvent.tick => (debugTick s).1
  | DebugEvent.loyly => (debugFakeLoyly s).1

/-- Debug-sensor state after `start()` followed by an arbitrary sequence
of ticks and `fakeLoyly` presses. -/
noncomputable def runDebug (h : Nat) (evs : List DebugEvent) : DebugState :=
  evs.foldl debugStep (startedDebugState h)

/-- Internal state of `createBleScanSensor`'s closure: the scan handle
and the advertisement-listener handle (`null` when not registered). -/
structure BleState where
  bleScan : Option Nat
  advListener : Option Nat
deriving DecidableEq

/-- External side effects of a BLE-scan-sensor `stop()`. -/
inductive BleEffect where
  | stopScan (h : Nat)
  | removeAdvListener (h : Nat)
deriving DecidableEq

/-- `stop()` of `createBleScanSensor`: `if (bleScan) bleScan.stop(); if
(advListener) navigator.bluetooth.removeEventListener(...); bleScan =
null; advListener = null;`. -/
def bleStop (s : BleState) : BleState × List BleEffect :=
  let e1 := match s.bleScan with
    | some h => [BleEffect.stopScan h]
    | none => []
  let e2 := match s.advListener with
    | some h => [BleEffect.removeAdvListener h]
    | none => []
  ({ bleScan := none, advListener := none }, e1 ++ e2)

/-- Internal state of `createRuuviNusSensor`'s closure.  `server` carries
its handle together with its `connected` flag. -/
structure NusState where
  device : Option Nat
  server : Option (Nat × Bool)
  nusService : Option Nat
  nusChar : Option Nat
  notifHandler : Option Nat
deriving DecidableEq

/-- External side effects of a NUS-sensor `stop()`. -/
inductive NusEffect where
  | removeCharListener (ch handler : Nat)
  | disconnect (srv : Nat)
deriving DecidableEq

/-- `stop()` of `createRuuviNusSensor`: remove the notification listener
if both the characteristic and the handler are present, disconnect if the
server is present and connected, then null every handle. -/
def nusStop (s : NusState) : NusState × List NusEffect :=
  let e1 := match s.nusChar, s.notifHandler with
    | some ch, some h => [NusEffect.removeCharListener ch h]
    | _, _ => []
  let e2 := match s.server with
    | some (srv, true) => [NusEffect.disconnect srv]
    | _ => []
  ({ device := none, server := none, nusService := none, nusChar := none,
     notifHandler := none }, e1 ++ e2)

/-! ## Claim theorems -/

/-- C1 (code_bug evidence): the `src/ruuvi.js` copy of `decodeRuuviDF5`
accepts frames the claim says must be rejected.  Its guard
`!(dataView instanceof DataView) && dataView.getUint8(0) !== 0x05` never
fires on a `DataView`, so a 24-byte frame whose byte 0 is `0x00` (not the
`0x05` discriminator) and even an 18-byte frame are decoded into fully
populated measurements, while the `src/App.jsx` copy (whose guard uses
`||` and checks `byteLength !== 24`) rejects both with `null`. -/
theorem decode_guard_bug_ruuvi :
    decodeRuuviDF5_ruuvi (JsValue.dataView (List.replicate 24 0)) =
      DecodeOutcome.ok
        { humidity := some 0, temperature := some 0, pressure := some 500,
          acceleration_x := some 0, acceleration_y := some 0, acceleration_z := some 0,
          battery := some 1600, txPower := some (-40),
          movement_counter := 0, measurement_sequence_number := 0, mac := none }
    ∧ decodeRuuviDF5_ruuvi (JsValue.dataView (5 :: List.replicate 17 0)) =
      DecodeOutcome.ok
        { humidity := some 0, temperature := some 0, pressure := some 500,
          acceleration_x := some 0, acceleration_y := some 0, acceleration_z := some 0,
          battery := some 1600, txPower := some (-40),
          movement_counter := 0, measurement_sequence_number := 0, mac := none }
    ∧ decodeRuuviDF5_app (JsValue.dataView (List.replicate 24 0)) = DecodeOutcome.nullResult
    ∧ decodeRuuviDF5_app (JsValue.dataView (5 :: List.replicate 17 0)) = DecodeOutcome.nullResult := by
  refine ⟨?_, ?_, ?_, ?_⟩ <;>
    simp [decodeRuuviDF5_ruuvi, decodeRuuviDF5_app, decodeBodyRuuvi,
      getUint8, getUint16, getInt16, toInt16, List.replicate] <;>
    norm_num

/-- C2 (code_bug evidence): on the frame whose 2-byte power field at
offsets 13–14 is all ones (the claim's 11-bit battery sentinel
`0b11111111111`), both decoder copies read a single byte at offset 13,
compute `batteryVoltage = 0xFF >> 5 = 7` and return
`battery = some 1607` — a converted number, not the absent marker the
claim requires (the code's sentinel test `batteryVoltage === 0b1111111`
compares a 3-bit value against 127 and can never fire).  The 5-bit
tx-power sentinel does fire (`txPower = none`). -/
theorem decode_power_field_bug :
    decodeRuuviDF5_app
        (JsValue.dataView [5, 0, 0, 0, 0, 0, 0, 0, 0, 0, 0, 0, 0, 255, 255, 0, 0, 0, 0, 0, 0, 0, 0, 0]) =
      DecodeOutcome.ok
        { humidity := some 0, temperature := some 0, pressure := some 500,
          acceleration_x := some 0, acceleration_y := some 0, acceleration_z := some 0,
          battery := some 1607, txPower := none,
          movement_counter := 0, measurement_sequence_number := 0,
          mac := some [0, 0, 0, 0, 0, 0] }
    ∧ (okMeasurement (decodeRuuviDF5_ruuvi
        (JsValue.dataView [5, 0, 0, 0, 0, 0, 0, 0, 0, 0, 0, 0, 0, 255, 255, 0, 0, 0, 0, 0, 0, 0, 0, 0]))).map
        Measurement.battery = some (some 1607) := by
  constructor
  · simp [decodeRuuviDF5_ruuvi, decodeRuuviDF5_app, decodeBodyRuuvi, decodeBodyApp,
      okMeasurement, macField, getUint8, getUint16, getInt16, toInt16]
    norm_num [show (255 : Nat) &&& 31 = 31 by decide, show (255 : Nat) >>> 5 = 7 by decide]
  · simp [decodeRuuviDF5_ruuvi, decodeRuuviDF5_app, decodeBodyRuuvi, decodeBodyApp,
      okMeasurement, macField, getUint8, getUint16, getInt16, toInt16,
      show (255 : Nat) &&& 31 = 31 by decide, show (255 : Nat) >>> 5 = 7 by decide]

/-- C6: `apparentTemperature` returns the absent marker whenever either
input is absent; being a total Lean function, it raises nothing. -/
theorem apparentTemperature_absent (T RH : Option ℝ) (h : T = none ∨ RH = none) :
    apparentTemperature T RH = none := by
  cases T with
  | none => rfl
  | some t =>
      cases RH with
      | none => rfl
      | some rh => rcases h with h | h <;> cases h

/-- Witness for C6 at the concrete input `(absent, 50)`. -/
theorem apparentTemperature_absent_witness :
    ((none : Option ℝ) = none ∨ (some (50 : ℝ)) = none) ∧
      apparentTemperature none (some (50 : ℝ)) = none :=
  ⟨Or.inl rfl, apparentTemperature_absent none (some (50 : ℝ)) (Or.inl rfl)⟩

/-- C8: on each sample-source variant, a second `stop()` is a no-op: it
leaves the state produced by the first `stop()` unchanged and performs no
further external effect (no timer clear, no scan stop, no listener
removal, no disconnect) — and, being total, raises no error. -/
theorem stop_idempotent :
    (∀ s : DebugState, debugStop (debugStop s).1 = ((debugStop s).1, []))
    ∧ (∀ s : BleState, bleStop (bleStop s).1 = ((bleStop s).1, []))
    ∧ (∀ s : NusState, nusStop (nusStop s).1 = ((nusStop s).1, [])) :=
  ⟨fun _ => rfl, fun _ => rfl, fun _ => rfl⟩

/-- C10: `fakeLoyly()` updates only `trueRH` (to
`min(trueRH + 10, 100)`); the other three simulation variables, the
`running` flag and the timer handle are untouched, and the call itself
emits no update. -/
theorem fakeLoyly_frame (s : DebugState) :
    (debugFakeLoyly s).1.trueRH = min (s.trueRH + 10) 100
    ∧ (debugFakeLoyly s).1.trueTemp = s.trueTemp
    ∧ (debugFakeLoyly s).1.fakeTemp = s.fakeTemp
    ∧ (debugFakeLoyly s).1.fakeRH = s.fakeRH
    ∧ (debugFakeLoyly s).1.running = s.running
    ∧ (debugFakeLoyly s).1.interval = s.interval
    ∧ (debugFakeLoyly s).2 = [] :=
  ⟨rfl, rfl, rfl, rfl, rfl, rfl, rfl⟩

/-- C3 (counterexample): a sample whose timestamp is exactly
`now - windowMs` away (here `ts = 100`, `now = 200`, `windowMs = 100`, so
`now - ts ≤ windowMs`) is NOT returned by the windowed query: Dexie's
`above(now - windowMs)` is strict. -/
theorem window_boundary_excluded :
    recentSamplesQuery [{ id := 0, ts := 100 }] 200 100 = []
    ∧ (200 : Int) - ({ id := 0, ts := 100 } : Sample).ts ≤ 100 := by
  constructor
  · simp [recentSamplesQuery, sortByTs]
  · norm_num

/-- C3 (amended): for every store content and window, the query returns
exactly the samples with `now - timestamp < windowMs` (strictly — the
boundary sample with `now - timestamp = windowMs` is excluded), in
ascending timestamp order, with `now` a query-time parameter. -/
theorem recentSamplesQuery_window (rows : List Sample) (now windowMs : Int) :
    List.Perm (recentSamplesQuery rows now windowMs)
      (rows.filter (fun s => now - windowMs < s.ts))
    ∧ (recentSamplesQuery rows now windowMs).Pairwise (fun a b => a.ts ≤ b.ts) := by
  constructor
  · exact (List.mergeSort_perm rows sampleLe).filter _
  · have hs : (sortByTs rows).Pairwise (fun a b => sampleLe a b) := by
      apply List.sorted_mergeSort
      · intro a b c hab hbc
        simp only [sampleLe, decide_eq_true_eq] at *
        omega
      · intro a b
        simp only [sampleLe]
        by_cases hab : a.ts ≤ b.ts
        · simp [hab]
        · simp [hab]
          omega
    have hs2 : (sortByTs rows).Pairwise (fun a b => a.ts ≤ b.ts) :=
      hs.imp (by intro a b hab; simpa [sampleLe] using hab)
    exact hs2.sublist (List.filter_sublist _)

/-- C4 (code_bug evidence): the `src/ruuvi.js` copy propagates a
`TypeError` past its boundary on any non-`DataView` input (its guard
evaluates `dataView.getUint8(0)` outside the `try` block), while the
`src/App.jsx` copy never lets an exception escape on any input. -/
theorem decode_throw_bug :
    decodeRuuviDF5_ruuvi JsValue.other = DecodeOutcome.thrown
    ∧ ∀ v : JsValue, isThrown (decodeRuuviDF5_app v) = false := by
  refine ⟨rfl, ?_⟩
  intro v
  cases v with
  | other => rfl
  | dataView bytes =>
      rw [decodeRuuviDF5_app]
      split
      · rfl
      · rename_i hlen
        split
        · rename_i heq
          exfalso
          simp only [getUint8, Option.map_eq_none'] at heq
          rw [List.getElem?_eq_none_iff] at heq
          omega
        · split
          · rfl
          · split <;> rfl

/-- The C9 invariant: the simulated true humidity stays within
`[BASELINE_RH, 100]`. -/
def debugRHInv (s : DebugState) : Prop :=
  BASELINE_RH ≤ s.trueRH ∧ s.trueRH ≤ 100

/-- Unfolded form of the `trueRH` update performed by one tick. -/
lemma debugTick_trueRH (s : DebugState) :
    (debugTick s).1.trueRH =
      if BASELINE_RH < s.trueRH then
        (if s.trueRH - max ((s.trueRH - BASELINE_RH) * 0.08) 0.05 < BASELINE_RH then BASELINE_RH
         else s.trueRH - max ((s.trueRH - BASELINE_RH) * 0.08) 0.05)
      else s.trueRH := rfl

/-- One tick preserves the humidity bounds: the decay subtracts a
positive amount and is clamped at the baseline. -/
lemma debugTick_inv (s : DebugState) (h1 : BASELINE_RH ≤ s.trueRH) (h2 : s.trueRH ≤ 100) :
    BASELINE_RH ≤ (debugTick s).1.trueRH ∧ (debugTick s).1.trueRH ≤ 100 := by
  rw [debugTick_trueRH]
  have hmax : (0.05 : ℝ) ≤ max ((s.trueRH - BASELINE_RH) * 0.08) 0.05 := le_max_right _ _
  split_ifs with ha hb
  · refine ⟨le_refl _, ?_⟩
    rw [BASELINE_RH]
    norm_num
  · refine ⟨not_lt.mp hb, ?_⟩
    linarith
  · exact ⟨h1, h2⟩

/-- A `fakeLoyly` press preserves the humidity bounds: the spike is
clamped at 100 and only ever raises the value. -/
lemma debugLoyly_inv (s : DebugState) (h1 : BASELINE_RH ≤ s.trueRH) :
    BASELINE_RH ≤ (debugFakeLoyly s).1.trueRH ∧ (debugFakeLoyly s).1.trueRH ≤ 100 := by
  show BASELINE_RH ≤ min (s.trueRH + 10) 100 ∧ min (s.trueRH + 10) 100 ≤ 100
  refine ⟨le_min (by linarith) ?_, min_le_right _ _⟩
  rw [BASELINE_RH]
  norm_num

/-- Every event preserves the C9 invariant. -/
lemma debugStep_inv (s : DebugState) (e : DebugEvent) (h : debugRHInv s) :
    debugRHInv (debugStep s e) := by
  obtain ⟨h1, h2⟩ := h
  cases e with
  | tick => exact debugTick_inv s h1 h2
  | loyly => exact debugLoyly_inv s h1

/-- The invariant is preserved by any event sequence. -/
lemma debugRHInv_foldl (evs : List DebugEvent) :
    ∀ s : DebugState, debugRHInv s → debugRHInv (evs.foldl debugStep s) := by
  induction evs with
  | nil => exact fun s h => h
  | cons e rest ih => exact fun s h => ih _ (debugStep_inv s e h)

/-- C9: after `start()` and any sequence of ticks and `fakeLoyly` calls,
the synthetic source's `trueRH` stays within `[5, 100]`. -/
theorem trueRH_bounded (tid : Nat) (evs : List DebugEvent) :
    5 ≤ (runDebug tid evs).trueRH ∧ (runDebug tid evs).trueRH ≤ 100 := by
  have hinv : debugRHInv (runDebug tid evs) := by
    apply debugRHInv_foldl
    constructor
    · exact le_refl _
    · show (BASELINE_RH : ℝ) ≤ 100
      rw [BASELINE_RH]
      norm_num
  obtain ⟨ha, hb⟩ := hinv
  refine ⟨?_, hb⟩
  rw [BASELINE_RH] at ha
  exact_mod_cast ha

/-- Taylor lower bound for `exp(877/2577)` (five terms). -/
lemma exp_frac_lb : (1.405354 : ℝ) ≤ Real.exp (877/2577) := by
  have h := Real.sum_le_exp_of_nonneg (x := 877/2577) (by norm_num) 5
  refine le_trans ?_ h
  rw [Finset.sum_range_succ, Finset.sum_range_succ, Finset.sum_range_succ,
      Finset.sum_range_succ, Finset.sum_range_succ, Finset.sum_range_zero]
  norm_num [Nat.factorial]

/-- Taylor upper bound for `exp(877/2577)` (five terms plus remainder). -/
lemma exp_frac_ub : Real.exp (877/2577) ≤ (1.405401 : ℝ) := by
  have h := Real.exp_bound' (x := 877/2577) (by norm_num) (by norm_num) (n := 5) (by norm_num)
  refine le_trans h ?_
  rw [Finset.sum_range_succ, Finset.sum_range_succ, Finset.sum_range_succ,
      Finset.sum_range_succ, Finset.sum_range_succ, Finset.sum_range_zero]
  norm_num [Nat.factorial]

/-- Bounds for `exp(3454/2577)`, the exponential appearing in
`apparentTemperature(20, 50)` (since `17.27*20/(237.7+20) = 3454/2577`),
via `exp(3454/2577) = exp(1) * exp(877/2577)`. -/
lemma exp_main_bounds :
    (3.8201 : ℝ) ≤ Real.exp (3454/2577) ∧ Real.exp (3454/2577) ≤ (3.8203 : ℝ) := by
  have hsplit : Real.exp ((3454 : ℝ)/2577) = Real.exp 1 * Real.exp (877/2577) := by
    rw [← Real.exp_add]
    norm_num
  have h1 := Real.exp_one_gt_d9
  have h2 := Real.exp_one_lt_d9
  have h3 := exp_frac_lb
  have h4 := exp_frac_ub
  have h5 : (0 : ℝ) < Real.exp (877/2577) := Real.exp_pos _
  have h6 : (0 : ℝ) < Real.exp 1 := Real.exp_pos _
  rw [hsplit]
  constructor
  · nlinarith
  · nlinarith

/-- Closed form of `apparentTemperature`'s formula at `(20, 50)`:
`20 + 0.33*((50/100)*6.105*exp(3454/2577)) - 4 = 16 + 1.007325*exp(3454/2577)`. -/
lemma apTempVal_20_50 :
    apTempVal 20 50 = 16 + 1.007325 * Real.exp (3454/2577) := by
  simp only [apTempVal]
  have harg : (17.27 : ℝ) * 20 / (237.7 + 20) = 3454/2577 := by norm_num
  rw [harg]
  ring

/-- C5 (counterexample): `apparentTemperature(20, 50)` is NOT ≈ 19.99:
the formula's value lies below 19.849, more than 0.13 away from 19.99 —
far beyond floating tolerance. -/
theorem apparentTemperature_not_19_99 :
    apparentTemperature (some 20) (some 50) = some (apTempVal 20 50)
    ∧ (0.13 : ℝ) < |apTempVal 20 50 - 19.99| := by
  refine ⟨rfl, ?_⟩
  have hb := exp_main_bounds
  rw [apTempVal_20_50]
  rw [abs_of_neg (by nlinarith [hb.2])]
  nlinarith [hb.2]

/-- C5 (amended): `apparentTemperature(20, 50)` ≈ 19.85 (within 0.01),
computed via `e = (RH/100)*6.105*exp(17.27*T/(237.7+T))` and
`result = T + 0.33*e - 4.00`. -/
theorem apparentTemperature_20_50 :
    apparentTemperature (some 20) (some 50) = some (apTempVal 20 50)
    ∧ |apTempVal 20 50 - 19.85| < 0.01 := by
  refine ⟨rfl, ?_⟩
  have hb := exp_main_bounds
  rw [apTempVal_20_50, abs_lt]
  constructor
  · nlinarith [hb.1]
  · nlinarith [hb.2]

/-- A frame accepted by the `src/App.jsx` decoder was accepted by its
`try`-body. -/
lemma decode_app_ok_body (bytes : List Nat) (m : Measurement)
    (h : decodeRuuviDF5_app (JsValue.dataView bytes) = DecodeOutcome.ok m) :
    decodeBodyApp bytes = some m := by
  rw [decodeRuuviDF5_app] at h
  split at h
  · cases h
  · split at h
    · cases h
    · split at h
      · cases h
      · split at h
        · rename_i heq
          injection h with h2
          rw [heq, h2]
        · cases h

/-- The body's `temperature` field is exactly the sentinel-checked signed
16-bit read at offset 1, divided by 200. -/
lemma decodeBodyApp_temperature (bytes : List Nat) (m : Measurement) (raw : Int)
    (hbody : decodeBodyApp bytes = some m) (hraw : getInt16 bytes 1 = some raw) :
    m.temperature = if raw = -32768 then none else some ((raw : ℚ) / 200) := by
  rw [decodeBodyApp, hraw] at hbody
  simp only [Option.bind_eq_bind, Option.bind_eq_some, Option.pure_def,
    Option.some.injEq] at hbody
  obtain ⟨tempRaw, htemp, hum, hhum, prs, hprs, ax, hax, ay, hay, az, haz,
    pw, hpw, mc, hmc, sq, hsq, macB, hmac, hm⟩ := hbody
  rw [← hm]
  cases htemp
  rfl

/-- C7: for every frame the `src/App.jsx` decoder accepts, the decoded
temperature is the signed big-endian 16-bit value at offset 1 divided by
200, with raw -32768 yielding absent; concretely, temperature raw bytes
`0x0157` (343) decode to 1.715 °C and raw bytes `0x8000` decode to
absent. -/
theorem decode_temperature_field :
    (∀ bytes m raw, decodeRuuviDF5_app (JsValue.dataView bytes) = DecodeOutcome.ok m →
        getInt16 bytes 1 = some raw →
        m.temperature = if raw = -32768 then none else some ((raw : ℚ) / 200))
    ∧ (okMeasurement (decodeRuuviDF5_app
        (JsValue.dataView (5 :: 1 :: 87 :: List.replicate 21 0)))).map
        Measurement.temperature = some (some 1.715)
    ∧ (okMeasurement (decodeRuuviDF5_app
        (JsValue.dataView (5 :: 128 :: 0 :: List.replicate 21 0)))).map
        Measurement.temperature = some none := by
  refine ⟨fun bytes m raw hdec hraw =>
      decodeBodyApp_temperature bytes m raw (decode_app_ok_body bytes m hdec) hraw, ?_, ?_⟩
  · simp [decodeRuuviDF5_app, decodeBodyApp, okMeasurement, macField,
      getUint8, getUint16, getInt16, toInt16, List.replicate]
    norm_num
  · simp [decodeRuuviDF5_app, decodeBodyApp, okMeasurement, macField,
      getUint8, getUint16, getInt16, toInt16, List.replicate]

/-- Witness for C7 at the concrete 24-byte frame
`[0x05, 0x01, 0x57, 0, ..., 0]`: the accepted measurement's temperature
is `343 / 200` (= 1.715 °C). -/
theorem decode_temperature_field_witness :
    ({ humidity := some 0, temperature := some ((343 : ℚ) / 200), pressure := some 500,
       acceleration_x := some 0, acceleration_y := some 0, acceleration_z := some 0,
       battery := some 1600, txPower := some (-40), movement_counter := 0,
       measurement_sequence_number := 0, mac := some [0, 0, 0, 0, 0, 0] } : Measurement).temperature
      = if (343 : Int) = -32768 then none else some ((343 : ℚ) / 200) :=
  decode_temperature_field.1 (5 :: 1 :: 87 :: List.replicate 21 0) _ 343
    (by
      simp [decodeRuuviDF5_app, decodeBodyApp, macField, getUint8, getUint16,
        getInt16, toInt16, List.replicate]
      norm_num)
    (by simp [getInt16, getUint16, getUint8, toInt16, List.replicate])
